import Mathlib

/-!
# rspamd worker: connection task state machine (src/worker.c)

A shallow embedding of the callbacks of `src/worker.c`:
`sigusr_handler`, `rcpt_destruct`, `free_task`, `read_socket`, `write_socket`,
`err_socket` and `accept_socket`.

Conventions of the embedding.

* A `struct worker_task` is the record `Task`; a pointer to it is an
  `Option Task` (`none` is `NULL`, and also what is left once `g_free` ran).
* Every call that leaves `worker.c` (libevent, glib, the dispatcher, the
  protocol and filter code) is recorded, in program order, as an `Effect`.
* The collaborators that receive the task pointer (`read_rspamd_input_line`,
  `process_message`, `process_filters`, `process_statfiles`, `write_reply`) are
  not part of `worker.c`; they are parameters (`Env`) and may rewrite the task
  in any way.  Constants that come from missing headers are parameters too.
-/

namespace Rspamd

/-- Modelled from the spec: the declaration of the task state enumeration
(`main.h`) is not among the sources.  The constructors are the seven names
`worker.c` switches on or assigns; `OTHER` stands for any other integer the
field may hold. -/
inductive TaskState
  | READ_COMMAND
  | READ_HEADER
  | READ_MESSAGE
  | WRITE_REPLY
  | WRITE_ERROR
  | WAIT_FILTER
  | CLOSING_CONNECTION
  | OTHER (raw : Nat)
  deriving DecidableEq, Repr

/-- What can be registered with `memory_pool_add_destructor`: the two
functions `accept_socket` registers (`rcpt_destruct` with the task as its
argument, `g_hash_table_destroy` with the result map), and `other` for a
teardown action some collaborator registers on the same pool. -/
inductive Destructor
  | rcpt_destruct
  | g_hash_table_destroy (results : Nat)
  | other (id : Nat)
  deriving DecidableEq, Repr

/-- The fields of `struct worker_task` that `worker.c` reads or writes.
Lists stand for `GList *` (the empty list is `NULL`), `Option` for nullable
pointers, `task_pool` for the memory pool with the destructors registered on
it (most recently registered first). -/
structure Task where
  state : TaskState
  sock : Int
  last_error : Option String
  error_code : Int
  msg : Option String
  rcpt : List Nat
  parts : List Nat
  memc_ctx : Option Nat
  task_pool : List Destructor
  results : Nat
  dispatcher : Nat
  deriving DecidableEq, Repr

/-- Calls that leave `worker.c`, in the order the code makes them.  A log
line carries its format string; `err_socket` appends the error message. -/
inductive Effect
  | msg_debug (text : String)
  | msg_info (text : String)
  | msg_err (text : String)
  | memc_close_ctx (ctx : Nat)
  | g_byte_array_free (content : Nat)
  | g_list_free_1 (part : Nat)
  | memory_pool_delete
  | rcpt_destruct
  | g_list_free (rcpt : List Nat)
  | g_hash_table_destroy (results : Nat)
  | pool_destructor (id : Nat)
  | rspamd_remove_dispatcher (dispatcher : Nat)
  | close (fd : Int)
  | g_free
  | read_rspamd_input_line (input : String)
  | process_message
  | process_filters
  | process_statfiles
  | rspamd_dispatcher_pause (dispatcher : Nat)
  | write_reply (task : Task)
  | accept (fd : Int) (nfd : Int)
  | event_make_socket_nonblocking (fd : Int)
  | g_malloc
  | memory_pool_new
  | memory_pool_add_destructor (d : Destructor)
  | g_hash_table_new
  | rspamd_create_dispatcher (fd : Int)
  | event_del_sig_ev
  | event_del_bind_ev
  | event_loopexit (tv_sec : Int) (tv_usec : Int)
  deriving DecidableEq, Repr

/-- The collaborators of the per-connection callbacks and the two error
codes; none of them is defined in `worker.c`.  Each collaborator receives the
task pointer, so it returns the task as it leaves it, with its return value
where it has one. -/
structure Env where
  read_rspamd_input_line : Task → String → Task × Int
  process_message : Task → Task × Int
  process_filters : Task → Task × Int
  process_statfiles : Task → Task
  write_reply : Task → Task
  RSPAMD_NETWORK_ERROR : Int
  RSPAMD_FILTER_ERROR : Int

/-! ## Teardown -/

/-- `rcpt_destruct` (worker.c 91-99): frees the recipient list when there is
one.  The call itself is recorded first. -/
def rcpt_destruct (task : Task) : List Effect :=
  Effect.rcpt_destruct ::
    (if task.rcpt ≠ [] then [Effect.g_list_free task.rcpt] else [])

/-- One registered destructor applied to its argument. -/
def run_destructor (task : Task) : Destructor → List Effect
  | Destructor.rcpt_destruct => rcpt_destruct task
  | Destructor.g_hash_table_destroy h => [Effect.g_hash_table_destroy h]
  | Destructor.other id => [Effect.pool_destructor id]

/-- Modelled from the spec: `memory_pool_delete` (mem_pool.c) is not among the
sources.  Releasing the arena runs every registered teardown action once; the
order is the stored one. -/
def memory_pool_delete (task : Task) : List Effect :=
  Effect.memory_pool_delete ::
    (task.task_pool.map (run_destructor task)).flatten

/-- The `while ((part = g_list_first (task->parts)))` loop of `free_task`
(worker.c 115-120): each part is unlinked, its content array released and its
list cell freed, until the list is empty. -/
def free_parts : List Nat → List Effect
  | [] => []
  | p :: rest =>
    Effect.g_byte_array_free p :: Effect.g_list_free_1 p :: free_parts rest

/-- `free_task` (worker.c 104-126).  The result is the pointer after the call:
always `none`. A `NULL` argument does nothing. -/
def free_task : Option Task → Option Task × List Effect
  | none => (none, [])
  | some task =>
    (none,
      [Effect.msg_debug "free_task: free pointer %p"]
      ++ (match task.memc_ctx with
          | some ctx => [Effect.memc_close_ctx ctx]
          | none => [])
      ++ free_parts task.parts
      ++ memory_pool_delete { task with parts := [] }
      ++ [Effect.rspamd_remove_dispatcher task.dispatcher,
          Effect.close task.sock,
          Effect.g_free])

/-! ## Dispatcher callbacks -/

/-- `write_socket` (worker.c 172-195). -/
def write_socket (env : Env) (task : Task) : Option Task × List Effect :=
  match task.state with
  | TaskState.WRITE_REPLY =>
    (some { env.write_reply task with state := TaskState.CLOSING_CONNECTION },
      [Effect.write_reply task])
  | TaskState.WRITE_ERROR =>
    (some { env.write_reply task with state := TaskState.CLOSING_CONNECTION },
      [Effect.write_reply task])
  | TaskState.CLOSING_CONNECTION =>
    let f := free_task (some task)
    (f.1, Effect.msg_debug "write_socket: normally closing connection" :: f.2)
  | _ =>
    let f := free_task (some task)
    (f.1, Effect.msg_info "write_socket: abnormally closing connection" :: f.2)

set_option linter.unusedVariables false in
/-- `read_socket` (worker.c 131-167).  The switch has no default: in any state
other than the three read states the callback does nothing.  In
`READ_MESSAGE` the variable `r` is assigned twice, first the result of
`process_message`, then that of `process_filters`. -/
def read_socket (env : Env) (input : String) (task : Task) :
    Option Task × List Effect :=
  match task.state with
  | TaskState.READ_COMMAND | TaskState.READ_HEADER =>
    let l := env.read_rspamd_input_line task input
    if l.2 ≠ 0 then
      let w := write_socket env
        { l.1 with
          last_error := some "Read error"
          error_code := env.RSPAMD_NETWORK_ERROR
          state := TaskState.WRITE_ERROR }
      (w.1, Effect.read_rspamd_input_line input :: w.2)
    else
      (some l.1, [Effect.read_rspamd_input_line input])
  | TaskState.READ_MESSAGE =>
    let m := env.process_message { task with msg := some input }
    let r := m.2
    let f := env.process_filters m.1
    let r := f.2
    if r = -1 then
      let w := write_socket env
        { f.1 with
          last_error := some "Filter processing error"
          error_code := env.RSPAMD_FILTER_ERROR
          state := TaskState.WRITE_ERROR }
      (w.1, Effect.process_message :: Effect.process_filters :: w.2)
    else if r = 0 then
      (some { f.1 with state := TaskState.WAIT_FILTER },
        [Effect.process_message, Effect.process_filters,
         Effect.rspamd_dispatcher_pause f.1.dispatcher])
    else
      let w := write_socket env (env.process_statfiles f.1)
      (w.1,
        Effect.process_message :: Effect.process_filters ::
          Effect.process_statfiles :: w.2)
  | _ => (some task, [])

/-- `err_socket` (worker.c 200-207). -/
def err_socket (message : String) (task : Task) : Option Task × List Effect :=
  let f := free_task (some task)
  (f.1, Effect.msg_info
    ("err_socket: abnormally closing connection, error: " ++ message) :: f.2)

/-! ## One connection driven by its dispatcher -/

/-- The three callbacks the dispatcher was given in `accept_socket`. -/
inductive Callback
  | read (input : String)
  | write
  | err (message : String)
  deriving DecidableEq, Repr

/-- A connection: the task pointer held by the dispatcher and everything the
callbacks have done so far. -/
structure Conn where
  task : Option Task
  log : List Effect
  deriving DecidableEq, Repr

/-- Modelled from the spec: the dispatcher (buffer.c) is not among the sources.
It is destroyed when the task is freed, so once `free_task` ran no further
callback is delivered; before that the callback is run on the task. -/
def deliver (env : Env) (c : Conn) (cb : Callback) : Conn :=
  match c.task with
  | none => c
  | some task =>
    match cb with
    | Callback.read input =>
      let r := read_socket env input task
      { task := r.1, log := c.log ++ r.2 }
    | Callback.write =>
      let r := write_socket env task
      { task := r.1, log := c.log ++ r.2 }
    | Callback.err message =>
      let r := err_socket message task
      { task := r.1, log := c.log ++ r.2 }

/-- A sequence of callbacks, delivered in order. -/
def run (env : Env) (c : Conn) (cbs : List Callback) : Conn :=
  cbs.foldl (deliver env) c

/-- Results of the library calls `accept_socket` makes. -/
structure AcceptLib where
  accept : Int → Int
  event_make_socket_nonblocking : Int → Int
  g_malloc : Option Nat
  g_hash_table_new : Nat
  rspamd_create_dispatcher : Int → Nat

/-- The state of one worker process that `worker.c` touches: the two
registered events, the global `do_reopen_log`, the pending `event_loopexit`
timer, `srv->stat->connections_count` (its C type is declared in the missing
main.h; the counter is kept unbounded here), the tasks that are in flight and
the library calls made. -/
structure World where
  sig_ev : Bool
  bind_ev : Bool
  do_reopen_log : Int
  loopexit : Option (Int × Int)
  connections_count : Nat
  tasks : List Task
  log : List Effect
  deriving DecidableEq, Repr

/-- `sigusr_handler` (worker.c 72-86).  `SOFT_SHUTDOWN_TIME` comes from a
missing header and is a parameter. -/
def sigusr_handler (SOFT_SHUTDOWN_TIME : Int) (w : World) : World :=
  { w with
    sig_ev := false
    bind_ev := false
    do_reopen_log := 1
    loopexit := some (SOFT_SHUTDOWN_TIME, 0)
    log := w.log ++
      [Effect.event_del_sig_ev, Effect.event_del_bind_ev,
       Effect.msg_info "worker's shutdown is pending in %d sec",
       Effect.event_loopexit SOFT_SHUTDOWN_TIME 0] }

/-- The task `accept_socket` builds (worker.c 233-249): zeroed by `bzero`,
then `state`, `sock`, the pool with its two destructors, the result map and
the dispatcher are filled in. -/
def new_task (lib : AcceptLib) (nfd : Int) : Task :=
  { state := TaskState.READ_COMMAND
    sock := nfd
    last_error := none
    error_code := 0
    msg := none
    rcpt := []
    parts := []
    memc_ctx := none
    task_pool :=
      [Destructor.g_hash_table_destroy lib.g_hash_table_new,
       Destructor.rcpt_destruct]
    results := lib.g_hash_table_new
    dispatcher := lib.rspamd_create_dispatcher nfd }

/-- `accept_socket` (worker.c 212-250), `fd` being the listening socket. -/
def accept_socket (lib : AcceptLib) (fd : Int) (w : World) : World :=
  let nfd := lib.accept fd
  if nfd = -1 then
    { w with log := w.log ++ [Effect.accept fd nfd] }
  else if lib.event_make_socket_nonblocking fd < 0 then
    { w with
      log := w.log ++
        [Effect.accept fd nfd, Effect.event_make_socket_nonblocking fd] }
  else
    match lib.g_malloc with
    | none =>
      { w with
        log := w.log ++
          [Effect.accept fd nfd, Effect.event_make_socket_nonblocking fd,
           Effect.g_malloc,
           Effect.msg_err "accept_socket: cannot allocate memory for task, %m"] }
    | some _ =>
      { w with
        tasks := w.tasks ++ [new_task lib nfd]
        connections_count := w.connections_count + 1
        log := w.log ++
          [Effect.accept fd nfd, Effect.event_make_socket_nonblocking fd,
           Effect.g_malloc,
           Effect.memory_pool_new,
           Effect.memory_pool_add_destructor Destructor.rcpt_destruct,
           Effect.g_hash_table_new,
           Effect.memory_pool_add_destructor
             (Destructor.g_hash_table_destroy lib.g_hash_table_new),
           Effect.rspamd_create_dispatcher nfd] }

/-! ## Observations on a log -/

/-- The tasks `write_reply` was called on, in order. -/
def replies : List Effect → List Task
  | [] => []
  | Effect.write_reply task :: rest => task :: replies rest
  | _ :: rest => replies rest

/-- The task as the filter stage leaves it for `read_socket` in
`READ_MESSAGE`: `msg` set, then `process_message`, then `process_filters`;
the second component is the value `r` that `read_socket` examines. -/
def filtered (env : Env) (input : String) (task : Task) : Task × Int :=
  env.process_filters (env.process_message { task with msg := some input }).1

/-- The task `read_socket` hands to `write_socket` when the line reader
fails (worker.c 141-143). -/
def read_error_task (env : Env) (input : String) (task : Task) : Task :=
  { (env.read_rspamd_input_line task input).1 with
    last_error := some "Read error"
    error_code := env.RSPAMD_NETWORK_ERROR
    state := TaskState.WRITE_ERROR }

/-- The task `read_socket` hands to `write_socket` when the pipeline returns
-1 (worker.c 152-154). -/
def filter_error_task (env : Env) (input : String) (task : Task) : Task :=
  { (filtered env input task).1 with
    last_error := some "Filter processing error"
    error_code := env.RSPAMD_FILTER_ERROR
    state := TaskState.WRITE_ERROR }

/-- The task `read_socket` hands to `write_socket` when the pipeline returns
Complete: what `process_statfiles` leaves (worker.c 162-163). -/
def completed_task (env : Env) (input : String) (task : Task) : Task :=
  env.process_statfiles (filtered env input task).1

/-- Modelled from the spec: `process_statfiles` (filter.c) is not among the
sources.  It is the post-processing step that follows a Complete pipeline
result and it leaves the task in WriteReply ("Complete, run post-processing,
WriteReply"); `stat` is whatever else it does to the task. -/
def process_statfiles (stat : Task → Task) (task : Task) : Task :=
  { stat task with state := TaskState.WRITE_REPLY }

/-- The collaborators `env`, with the post-processing step of the spec. -/
def with_statfiles (env : Env) (stat : Task → Task) : Env :=
  { env with process_statfiles := process_statfiles stat }

/-- The pool as `accept_socket` leaves it: the two destructors it registers,
the later one first. -/
def pool0 (results : Nat) : List Destructor :=
  [Destructor.g_hash_table_destroy results, Destructor.rcpt_destruct]

/-- The pool `new` is the pool `old` with further teardown actions, none of
them one of the two of `worker.c`, registered on it. -/
def Extends (old new : List Destructor) : Prop :=
  ∃ extra, new = extra ++ old ∧ ∀ d ∈ extra, ∃ k, d = Destructor.other k

/-- Modelled from the spec: the pool interface (mem_pool.c) is not among the
sources.  A teardown action can be registered on the arena, never removed,
and `rcpt_destruct` is private to `worker.c`; so a collaborator that touches
the pool registers further actions of its own on it. -/
def OnlyRegisters (env : Env) : Prop :=
  (∀ t i, Extends t.task_pool (env.read_rspamd_input_line t i).1.task_pool)
  ∧ (∀ t, Extends t.task_pool (env.process_message t).1.task_pool)
  ∧ (∀ t, Extends t.task_pool (env.process_filters t).1.task_pool)
  ∧ (∀ t, Extends t.task_pool (env.process_statfiles t).task_pool)
  ∧ (∀ t, Extends t.task_pool (env.write_reply t).task_pool)

/-- The effect `e` is none of the calls the callbacks make outside
`free_task`. -/
def Quiet (e : Effect) : Prop :=
  (∀ t, e ≠ Effect.write_reply t)
  ∧ (∀ i, e ≠ Effect.read_rspamd_input_line i)
  ∧ e ≠ Effect.process_message
  ∧ e ≠ Effect.process_filters
  ∧ e ≠ Effect.process_statfiles
  ∧ (∀ d, e ≠ Effect.rspamd_dispatcher_pause d)
  ∧ (∀ m, e ≠ Effect.msg_info m)
  ∧ (∀ m, e ≠ Effect.msg_debug m)

/-- Every collaborator keeps the property `P` of the pool. -/
def Keeps (env : Env) (P : List Destructor → Prop) : Prop :=
  (∀ t i, P t.task_pool → P (env.read_rspamd_input_line t i).1.task_pool)
  ∧ (∀ t, P t.task_pool → P (env.process_message t).1.task_pool)
  ∧ (∀ t, P t.task_pool → P (env.process_filters t).1.task_pool)
  ∧ (∀ t, P t.task_pool → P (env.process_statfiles t).task_pool)
  ∧ (∀ t, P t.task_pool → P (env.write_reply t).task_pool)

/-- Outcome of one callback with respect to the effect `e`: the task lives
on, its pool still has property `P` and `e` did not happen, or the task is
gone and `e` happened once. -/
def Once (e : Effect) (P : List Destructor → Prop)
    (r : Option Task × List Effect) : Prop :=
  (∃ t, r.1 = some t ∧ P t.task_pool ∧ List.count e r.2 = 0)
  ∨ (r.1 = none ∧ List.count e r.2 = 1)

/-- The bookkeeping invariant of a connection for the effect `e`: while the
task lives `e` has not happened, once it is gone `e` has happened exactly
once. -/
def Tracked (e : Effect) (P : List Destructor → Prop) (c : Conn) : Prop :=
  match c.task with
  | some t => P t.task_pool ∧ List.count e c.log = 0
  | none => List.count e c.log = 1

/-- What glib's `g_malloc` does with a request (glib is not part of the
repository): it returns a pointer, or it does not return at all. -/
inductive GMalloc
  | returns (pointer : Option Nat)
  | aborts
  deriving DecidableEq, Repr

/-- The `g_malloc` of glib on a request of `n_bytes`, `heap` being the block
the allocator can hand out, if any: `NULL` for a request of zero bytes, the
block when there is one, and otherwise the program is terminated; a failed
allocation never returns `NULL`. -/
def g_malloc (n_bytes : Nat) (heap : Option Nat) : GMalloc :=
  if n_bytes = 0 then GMalloc.returns none
  else
    match heap with
    | some block => GMalloc.returns (some block)
    | none => GMalloc.aborts

/-- One readiness event on the listening socket as the worker process runs
it: `accept_socket` with the value `g_malloc` returned for
`sizeof (struct worker_task)` bytes, or `none` when `g_malloc`, reached after
the two early returns, terminated the process. -/
def accept_event (lib : AcceptLib) (sizeof_task : Nat) (heap : Option Nat)
    (fd : Int) (w : World) : Option World :=
  if lib.accept fd = -1 then some (accept_socket lib fd w)
  else if lib.event_make_socket_nonblocking fd < 0 then
    some (accept_socket lib fd w)
  else
    match g_malloc sizeof_task heap with
    | GMalloc.returns pointer =>
      some (accept_socket { lib with g_malloc := pointer } fd w)
    | GMalloc.aborts => none

/-! ## Concrete inputs -/

/-- Library results of one successful accept: listening socket 3 yields
descriptor 7. -/
def lib_ok : AcceptLib :=
  { accept := fun _ => 7
    event_make_socket_nonblocking := fun _ => 0
    g_malloc := some 4096
    g_hash_table_new := 11
    rspamd_create_dispatcher := fun _ => 5 }

/-- A worker right after `start_worker`, with no connection yet. -/
def world0 : World :=
  { sig_ev := true
    bind_ev := true
    do_reopen_log := 0
    loopexit := none
    connections_count := 0
    tasks := []
    log := [] }

/-- Collaborators that follow the contracts of the spec and touch nothing
else: the line reader accepts every line and leaves the state alone, the
parser succeeds, the pipeline returns Complete (1). -/
def env_complete : Env :=
  { read_rspamd_input_line := fun t _ => (t, 0)
    process_message := fun t => (t, 0)
    process_filters := fun t => (t, 1)
    process_statfiles := fun t => t
    write_reply := fun t => t
    RSPAMD_NETWORK_ERROR := 2
    RSPAMD_FILTER_ERROR := 1 }

/-- As `env_complete`, with a line reader that rejects every line. -/
def env_badline : Env :=
  { env_complete with read_rspamd_input_line := fun t _ => (t, -1) }

/-- As `env_complete`, with a pipeline that fails. -/
def env_filter_error : Env :=
  { env_complete with process_filters := fun t => (t, -1) }

/-- As `env_complete`, with a pipeline that answers Pending (0). -/
def env_pending : Env :=
  { env_complete with process_filters := fun t => (t, 0) }

/-- Collaborators that walk the protocol: the line reader rejects an empty
command line, moves from the command to the headers, and from the headers to
the body on the blank line; the parser stores one part and registers a
teardown action of its own; the pipeline completes at once. -/
def env_lines : Env :=
  { env_complete with
    read_rspamd_input_line := fun t i =>
      match t.state with
      | TaskState.READ_COMMAND =>
        if i = "" then (t, -1) else ({ t with state := TaskState.READ_HEADER }, 0)
      | TaskState.READ_HEADER =>
        if i = "" then ({ t with state := TaskState.READ_MESSAGE }, 0) else (t, 0)
      | _ => (t, 0)
    process_message := fun t =>
      ({ t with parts := [21], task_pool := Destructor.other 1 :: t.task_pool },
        0) }

/-- The collaborators `env_lines` with the post-processing step of the
spec. -/
def env_proto : Env := with_statfiles env_lines (fun t => t)

/-- Scenario A on the wire: command, one header, the blank line, the body,
and the write-complete callback. -/
def scenario_a : List Callback :=
  [Callback.read "SYMBOLS RSPAMC/1.0", Callback.read "Content-Length: 4",
   Callback.read "", Callback.read "body", Callback.write]

/-- Scenario C: the peer goes away while the headers are read. -/
def scenario_c : List Callback :=
  [Callback.read "SYMBOLS RSPAMC/1.0", Callback.read "Content-Length: 4",
   Callback.err "Connection reset by peer"]

/-- The task of the accepted connection 7. -/
def task7 : Task := new_task lib_ok 7

/-- A worker with two connections in flight, one waiting for its filters. -/
def world2 : World :=
  { world0 with
    connections_count := 2
    tasks :=
      [{ new_task lib_ok 8 with state := TaskState.READ_HEADER },
       { new_task lib_ok 9 with state := TaskState.WAIT_FILTER }] }

/-- Connection 7 once command and headers have been read. -/
def task7_body : Task := { task7 with state := TaskState.READ_MESSAGE }

end Rspamd

namespace Rspamd

/-! ## Basic facts about the callbacks -/

theorem replies_append (a b : List Effect) :
    replies (a ++ b) = replies a ++ replies b := by
  induction a with
  | nil => rfl
  | cons e rest ih => cases e <;> simp [replies, ih]

theorem replies_free_parts (ps : List Nat) : replies (free_parts ps) = [] := by
  induction ps with
  | nil => rfl
  | cons p rest ih => simp [free_parts, replies, ih]

theorem replies_run_destructor (task : Task) (d : Destructor) :
    replies (run_destructor task d) = [] := by
  cases d
  · by_cases h : task.rcpt = [] <;> simp [run_destructor, rcpt_destruct, replies, h]
  · simp [run_destructor, replies]
  · simp [run_destructor, replies]

theorem replies_destructors (task : Task) (ds : List Destructor) :
    replies (ds.map (run_destructor task)).flatten = [] := by
  induction ds with
  | nil => rfl
  | cons d rest ih =>
    simp [List.flatten, replies_append, replies_run_destructor]
    simpa using ih

theorem replies_free_task (task : Task) :
    replies (free_task (some task)).2 = [] := by
  cases hm : task.memc_ctx <;>
    simp [free_task, hm, replies_append, replies, replies_free_parts,
      memory_pool_delete, replies_destructors]

theorem free_task_fst (p : Option Task) : (free_task p).1 = none := by
  cases p <;> rfl

theorem count_free_parts (e : Effect) (ps : List Nat)
    (h1 : ∀ p, e ≠ Effect.g_byte_array_free p)
    (h2 : ∀ p, e ≠ Effect.g_list_free_1 p) :
    List.count e (free_parts ps) = 0 := by
  induction ps with
  | nil => rfl
  | cons p rest ih =>
    simp only [free_parts, List.count_cons, ih]
    have a := h1 p
    have b := h2 p
    simp [Ne.symm a, Ne.symm b]

theorem count_run_destructor (e : Effect) (task : Task) (d : Destructor)
    (h1 : e ≠ Effect.rcpt_destruct) (h2 : ∀ l, e ≠ Effect.g_list_free l)
    (h3 : ∀ h, e ≠ Effect.g_hash_table_destroy h)
    (h4 : ∀ k, e ≠ Effect.pool_destructor k) :
    List.count e (run_destructor task d) = 0 := by
  cases d with
  | rcpt_destruct =>
    have b := h2 task.rcpt
    by_cases h : task.rcpt = [] <;>
      simp [run_destructor, rcpt_destruct, h, List.count_cons, Ne.symm h1, Ne.symm b]
  | g_hash_table_destroy r =>
    have c := h3 r
    simp [run_destructor, List.count_cons, Ne.symm c]
  | other k =>
    have c := h4 k
    simp [run_destructor, List.count_cons, Ne.symm c]

theorem count_destructors (e : Effect) (task : Task) (ds : List Destructor)
    (h1 : e ≠ Effect.rcpt_destruct) (h2 : ∀ l, e ≠ Effect.g_list_free l)
    (h3 : ∀ h, e ≠ Effect.g_hash_table_destroy h)
    (h4 : ∀ k, e ≠ Effect.pool_destructor k) :
    List.count e (ds.map (run_destructor task)).flatten = 0 := by
  induction ds with
  | nil => rfl
  | cons d rest ih =>
    simp only [List.map_cons, List.flatten_cons, List.count_append, ih,
      count_run_destructor e task d h1 h2 h3 h4]

theorem count_g_free_free_task (task : Task) :
    List.count Effect.g_free (free_task (some task)).2 = 1 := by
  cases hm : task.memc_ctx <;>
    simp [free_task, hm, memory_pool_delete, List.count_append, List.count_cons,
      count_free_parts, count_destructors]

theorem count_pool_delete_free_task (task : Task) :
    List.count Effect.memory_pool_delete (free_task (some task)).2 = 1 := by
  cases hm : task.memc_ctx <;>
    simp [free_task, hm, memory_pool_delete, List.count_append, List.count_cons,
      count_free_parts, count_destructors]

theorem mem_free_task (task : Task) :
    Effect.memory_pool_delete ∈ (free_task (some task)).2
    ∧ Effect.rspamd_remove_dispatcher task.dispatcher ∈ (free_task (some task)).2
    ∧ Effect.close task.sock ∈ (free_task (some task)).2
    ∧ Effect.g_free ∈ (free_task (some task)).2 := by
  simp [free_task, memory_pool_delete]

theorem run_nil (env : Env) (c : Conn) : run env c [] = c := rfl

theorem run_cons (env : Env) (c : Conn) (cb : Callback) (rest : List Callback) :
    run env c (cb :: rest) = run env (deliver env c cb) rest := rfl

theorem write_socket_reply (env : Env) (task : Task)
    (h : task.state = TaskState.WRITE_REPLY ∨ task.state = TaskState.WRITE_ERROR) :
    write_socket env task
      = (some { env.write_reply task with state := TaskState.CLOSING_CONNECTION },
         [Effect.write_reply task]) := by
  rcases h with h | h <;> simp [write_socket, h]

theorem write_socket_free (env : Env) (task : Task)
    (h1 : task.state ≠ TaskState.WRITE_REPLY)
    (h2 : task.state ≠ TaskState.WRITE_ERROR) :
    (write_socket env task).1 = none
    ∧ ∃ m, (write_socket env task).2 = m :: (free_task (some task)).2
        ∧ replies [m] = [] ∧ m ≠ Effect.g_free ∧ m ≠ Effect.memory_pool_delete
        ∧ m ≠ Effect.rcpt_destruct ∧ ∀ h, m ≠ Effect.g_hash_table_destroy h := by
  cases hs : task.state <;> simp_all [write_socket, free_task, replies]

theorem write_socket_free_facts (env : Env) (task : Task)
    (h1 : task.state ≠ TaskState.WRITE_REPLY)
    (h2 : task.state ≠ TaskState.WRITE_ERROR) :
    (write_socket env task).1 = none
    ∧ replies (write_socket env task).2 = []
    ∧ Effect.memory_pool_delete ∈ (write_socket env task).2
    ∧ Effect.rspamd_remove_dispatcher task.dispatcher ∈ (write_socket env task).2
    ∧ Effect.close task.sock ∈ (write_socket env task).2
    ∧ List.count Effect.g_free (write_socket env task).2 = 1 := by
  obtain ⟨hn, m, hm, hr, hg, _, _, _⟩ := write_socket_free env task h1 h2
  obtain ⟨m1, m2, m3, _⟩ := mem_free_task task
  have hr2 := replies_free_task task
  have hc := count_g_free_free_task task
  have hrm : replies (m :: (free_task (some task)).2) = [] := by
    have := replies_append [m] (free_task (some task)).2
    rw [hr, hr2] at this
    exact this
  refine ⟨hn, ?_, ?_, ?_, ?_, ?_⟩
  · rw [hm]; exact hrm
  · rw [hm]; exact List.mem_cons_of_mem _ m1
  · rw [hm]; exact List.mem_cons_of_mem _ m2
  · rw [hm]; exact List.mem_cons_of_mem _ m3
  · rw [hm, List.count_cons, hc]; simp [hg]

theorem deliver_write (env : Env) (task : Task) (log : List Effect) :
    deliver env ⟨some task, log⟩ Callback.write
      = ⟨(write_socket env task).1, log ++ (write_socket env task).2⟩ := rfl

theorem deliver_read (env : Env) (task : Task) (log : List Effect)
    (input : String) :
    deliver env ⟨some task, log⟩ (Callback.read input)
      = ⟨(read_socket env input task).1, log ++ (read_socket env input task).2⟩ :=
  rfl

theorem deliver_err (env : Env) (task : Task) (log : List Effect)
    (message : String) :
    deliver env ⟨some task, log⟩ (Callback.err message)
      = ⟨(err_socket message task).1, log ++ (err_socket message task).2⟩ := rfl

theorem deliver_none (env : Env) (log : List Effect) (cb : Callback) :
    deliver env ⟨none, log⟩ cb = ⟨none, log⟩ := rfl

theorem read_socket_line_ok (env : Env) (input : String) (task : Task)
    (hs : task.state = TaskState.READ_COMMAND ∨ task.state = TaskState.READ_HEADER)
    (hl : (env.read_rspamd_input_line task input).2 = 0) :
    read_socket env input task
      = (some (env.read_rspamd_input_line task input).1,
         [Effect.read_rspamd_input_line input]) := by
  rcases hs with hs | hs <;> simp [read_socket, hs, hl]

theorem read_socket_line_error (env : Env) (input : String) (task : Task)
    (hs : task.state = TaskState.READ_COMMAND ∨ task.state = TaskState.READ_HEADER)
    (hl : (env.read_rspamd_input_line task input).2 ≠ 0) :
    read_socket env input task
      = (some { env.write_reply (read_error_task env input task) with
                state := TaskState.CLOSING_CONNECTION },
         [Effect.read_rspamd_input_line input,
          Effect.write_reply (read_error_task env input task)]) := by
  have hw := write_socket_reply env (read_error_task env input task)
    (Or.inr rfl)
  have hr : read_socket env input task
      = ((write_socket env (read_error_task env input task)).1,
         Effect.read_rspamd_input_line input ::
           (write_socket env (read_error_task env input task)).2) := by
    rcases hs with hs | hs <;>
      simp only [read_socket, hs, read_error_task, hl, ne_eq, not_false_eq_true,
        if_true]
  rw [hr, hw]

theorem read_socket_filter_error (env : Env) (input : String) (task : Task)
    (hs : task.state = TaskState.READ_MESSAGE)
    (hf : (filtered env input task).2 = -1) :
    read_socket env input task
      = (some { env.write_reply (filter_error_task env input task) with
                state := TaskState.CLOSING_CONNECTION },
         [Effect.process_message, Effect.process_filters,
          Effect.write_reply (filter_error_task env input task)]) := by
  have hw := write_socket_reply env (filter_error_task env input task)
    (Or.inr rfl)
  have hr : read_socket env input task
      = ((write_socket env (filter_error_task env input task)).1,
         Effect.process_message :: Effect.process_filters ::
           (write_socket env (filter_error_task env input task)).2) := by
    simp only [filtered, hs] at hf
    simp only [read_socket, hs, filter_error_task, filtered, hf, if_true]
  rw [hr, hw]

theorem read_socket_pending (env : Env) (input : String) (task : Task)
    (hs : task.state = TaskState.READ_MESSAGE)
    (hf : (filtered env input task).2 = 0) :
    read_socket env input task
      = (some { (filtered env input task).1 with
                state := TaskState.WAIT_FILTER },
         [Effect.process_message, Effect.process_filters,
          Effect.rspamd_dispatcher_pause
            (filtered env input task).1.dispatcher]) := by
  simp only [filtered, hs] at hf
  simp [read_socket, hs, filtered, hf]

theorem read_socket_complete (env : Env) (input : String) (task : Task)
    (hs : task.state = TaskState.READ_MESSAGE)
    (h1 : (filtered env input task).2 ≠ -1)
    (h0 : (filtered env input task).2 ≠ 0) :
    read_socket env input task
      = ((write_socket env (completed_task env input task)).1,
         [Effect.process_message, Effect.process_filters,
           Effect.process_statfiles] ++
           (write_socket env (completed_task env input task)).2) := by
  simp only [filtered, hs] at h1 h0
  simp only [read_socket, hs, completed_task, filtered, h1, h0, if_false]
  rfl

theorem read_socket_idle (env : Env) (input : String) (task : Task)
    (h1 : task.state ≠ TaskState.READ_COMMAND)
    (h2 : task.state ≠ TaskState.READ_HEADER)
    (h3 : task.state ≠ TaskState.READ_MESSAGE) :
    read_socket env input task = (some task, []) := by
  cases hs : task.state <;> simp_all [read_socket]

/-! ## The claims about a single callback -/

/-- C6: `write_socket` is decided by the task's state alone.  In `WRITE_REPLY`
or `WRITE_ERROR` it calls `write_reply` exactly once, sets the state to
`CLOSING_CONNECTION` and frees nothing; a second invocation then frees the
task, so the task is freed after exactly two invocations, with one reply and
one `g_free` overall.  In every other state (`CLOSING_CONNECTION`, the read
states, `WAIT_FILTER`, any unrecognised value) it writes no reply and frees
the task: the arena is released, the dispatcher removed, the socket closed.
From no state is the task still allocated after two invocations. -/
theorem C6_write_socket_by_state (env : Env) (task : Task) :
    ((task.state = TaskState.WRITE_REPLY ∨ task.state = TaskState.WRITE_ERROR) →
      write_socket env task
        = (some { env.write_reply task with
                  state := TaskState.CLOSING_CONNECTION },
           [Effect.write_reply task])
      ∧ (run env ⟨some task, []⟩ [Callback.write]).task ≠ none
      ∧ Effect.g_free ∉ (run env ⟨some task, []⟩ [Callback.write]).log
      ∧ (run env ⟨some task, []⟩ [Callback.write, Callback.write]).task = none
      ∧ replies (run env ⟨some task, []⟩ [Callback.write, Callback.write]).log
          = [task]
      ∧ List.count Effect.g_free
          (run env ⟨some task, []⟩ [Callback.write, Callback.write]).log = 1)
    ∧ (¬ (task.state = TaskState.WRITE_REPLY ∨ task.state = TaskState.WRITE_ERROR) →
      (write_socket env task).1 = none
      ∧ replies (write_socket env task).2 = []
      ∧ Effect.memory_pool_delete ∈ (write_socket env task).2
      ∧ Effect.rspamd_remove_dispatcher task.dispatcher ∈ (write_socket env task).2
      ∧ Effect.close task.sock ∈ (write_socket env task).2
      ∧ List.count Effect.g_free (write_socket env task).2 = 1)
    ∧ (run env ⟨some task, []⟩ [Callback.write, Callback.write]).task = none := by
  have closing : ∀ t : Task, t.state = TaskState.CLOSING_CONNECTION →
      (write_socket env t).1 = none
      ∧ replies (write_socket env t).2 = []
      ∧ List.count Effect.g_free (write_socket env t).2 = 1 := by
    intro t ht
    obtain ⟨a, b, _, _, _, c⟩ :=
      write_socket_free_facts env t (by rw [ht]; decide) (by rw [ht]; decide)
    exact ⟨a, b, c⟩
  have twice : ∀ h : task.state = TaskState.WRITE_REPLY
        ∨ task.state = TaskState.WRITE_ERROR,
      run env ⟨some task, []⟩ [Callback.write, Callback.write]
        = ⟨none, Effect.write_reply task ::
            (write_socket env { env.write_reply task with
              state := TaskState.CLOSING_CONNECTION }).2⟩ := by
    intro h
    obtain ⟨a, _, _⟩ := closing
      { env.write_reply task with state := TaskState.CLOSING_CONNECTION } rfl
    rw [run_cons, run_cons, run_nil, deliver_write, write_socket_reply env task h,
      deliver_write, a]
    rfl
  refine ⟨?_, ?_, ?_⟩
  · intro h
    have hw := write_socket_reply env task h
    obtain ⟨_, b, c⟩ := closing
      { env.write_reply task with state := TaskState.CLOSING_CONNECTION } rfl
    have one : run env ⟨some task, []⟩ [Callback.write]
        = ⟨some { env.write_reply task with
                  state := TaskState.CLOSING_CONNECTION },
           [Effect.write_reply task]⟩ := by
      rw [run_cons, run_nil, deliver_write, hw]
      rfl
    refine ⟨hw, ?_, ?_, ?_, ?_, ?_⟩
    · rw [one]; simp
    · rw [one]; simp
    · rw [twice h]
    · rw [twice h]
      show replies ([Effect.write_reply task] ++ _) = _
      rw [replies_append, b]
      rfl
    · rw [twice h, List.count_cons, c]
      simp
  · intro h
    exact write_socket_free_facts env task (fun e => h (Or.inl e))
      (fun e => h (Or.inr e))
  · by_cases h : task.state = TaskState.WRITE_REPLY ∨ task.state = TaskState.WRITE_ERROR
    · rw [twice h]
    · obtain ⟨hn, _⟩ := write_socket_free_facts env task (fun e => h (Or.inl e))
        (fun e => h (Or.inr e))
      rw [run_cons, deliver_write, hn, run_cons, deliver_none, run_nil]

/-- C4: a line-reader failure in `READ_COMMAND` or `READ_HEADER`, and a
pipeline result of -1 in `READ_MESSAGE`, each make `read_socket` record the
matching error on the task ("Read error" with `RSPAMD_NETWORK_ERROR`,
"Filter processing error" with `RSPAMD_FILTER_ERROR`), call `write_reply`
exactly once on that task in `WRITE_ERROR`, and leave the task allocated in
`CLOSING_CONNECTION`. -/
theorem C4_errors_reply_once_then_closing (env : Env) (input : String)
    (task : Task) :
    ((task.state = TaskState.READ_COMMAND ∨ task.state = TaskState.READ_HEADER) →
      (env.read_rspamd_input_line task input).2 ≠ 0 →
      read_socket env input task
        = (some { env.write_reply (read_error_task env input task) with
                  state := TaskState.CLOSING_CONNECTION },
           [Effect.read_rspamd_input_line input,
            Effect.write_reply (read_error_task env input task)])
      ∧ replies (read_socket env input task).2 = [read_error_task env input task]
      ∧ (read_error_task env input task).last_error = some "Read error"
      ∧ (read_error_task env input task).error_code = env.RSPAMD_NETWORK_ERROR
      ∧ (read_error_task env input task).state = TaskState.WRITE_ERROR
      ∧ Effect.g_free ∉ (read_socket env input task).2)
    ∧ (task.state = TaskState.READ_MESSAGE →
      (filtered env input task).2 = -1 →
      read_socket env input task
        = (some { env.write_reply (filter_error_task env input task) with
                  state := TaskState.CLOSING_CONNECTION },
           [Effect.process_message, Effect.process_filters,
            Effect.write_reply (filter_error_task env input task)])
      ∧ replies (read_socket env input task).2
          = [filter_error_task env input task]
      ∧ (filter_error_task env input task).last_error
          = some "Filter processing error"
      ∧ (filter_error_task env input task).error_code = env.RSPAMD_FILTER_ERROR
      ∧ (filter_error_task env input task).state = TaskState.WRITE_ERROR
      ∧ Effect.g_free ∉ (read_socket env input task).2) := by
  constructor
  · intro hs hl
    rw [read_socket_line_error env input task hs hl]
    refine ⟨rfl, rfl, rfl, rfl, rfl, ?_⟩
    simp
  · intro hs hf
    rw [read_socket_filter_error env input task hs hf]
    refine ⟨rfl, rfl, rfl, rfl, rfl, ?_⟩
    simp

/-- C4 at concrete connections: a rejected command line on the fresh
connection 7, and a failing pipeline once its body arrives. -/
theorem C4_errors_reply_once_then_closing_witness :
    read_socket env_badline "BOGUS" task7
        = (some { task7 with
                  last_error := some "Read error"
                  error_code := 2
                  state := TaskState.CLOSING_CONNECTION },
           [Effect.read_rspamd_input_line "BOGUS",
            Effect.write_reply { task7 with
              last_error := some "Read error"
              error_code := 2
              state := TaskState.WRITE_ERROR }])
    ∧ read_socket env_filter_error "body" task7_body
        = (some { task7_body with
                  msg := some "body"
                  last_error := some "Filter processing error"
                  error_code := 1
                  state := TaskState.CLOSING_CONNECTION },
           [Effect.process_message, Effect.process_filters,
            Effect.write_reply { task7_body with
              msg := some "body"
              last_error := some "Filter processing error"
              error_code := 1
              state := TaskState.WRITE_ERROR }]) :=
  ⟨((C4_errors_reply_once_then_closing env_badline "BOGUS" task7).1
      (by decide) (by decide)).1,
   ((C4_errors_reply_once_then_closing env_filter_error "body" task7_body).2
      (by decide) (by decide)).1⟩

/-- C5: when the pipeline answers Pending (0) for a task in `READ_MESSAGE`,
`read_socket` sets the state to `WAIT_FILTER`, pauses the dispatcher exactly
once, writes no reply and frees nothing; and in `WAIT_FILTER` a further
`read_socket` leaves the task as it is and does nothing. -/
theorem C5_pending_pauses_and_waits (env : Env) (input : String) (task : Task) :
    (task.state = TaskState.READ_MESSAGE →
      (filtered env input task).2 = 0 →
      read_socket env input task
        = (some { (filtered env input task).1 with
                  state := TaskState.WAIT_FILTER },
           [Effect.process_message, Effect.process_filters,
            Effect.rspamd_dispatcher_pause
              (filtered env input task).1.dispatcher])
      ∧ replies (read_socket env input task).2 = []
      ∧ Effect.g_free ∉ (read_socket env input task).2
      ∧ ∀ again : String,
          run env ⟨some task, []⟩ [Callback.read input, Callback.read again]
            = run env ⟨some task, []⟩ [Callback.read input])
    ∧ (task.state = TaskState.WAIT_FILTER →
      read_socket env input task = (some task, [])) := by
  have wait : ∀ (t : Task) (i : String), t.state = TaskState.WAIT_FILTER →
      read_socket env i t = (some t, []) := by
    intro t i ht
    exact read_socket_idle env i t (by rw [ht]; decide) (by rw [ht]; decide)
      (by rw [ht]; decide)
  refine ⟨?_, wait task input⟩
  intro hs hf
  have hr := read_socket_pending env input task hs hf
  rw [hr]
  refine ⟨rfl, rfl, by simp, ?_⟩
  intro again
  rw [run_cons, run_cons, run_cons, run_nil, run_nil, deliver_read, hr,
    deliver_read, wait _ again rfl]
  simp

/-- C5 at the concrete connection 7 with a pending pipeline. -/
theorem C5_pending_pauses_and_waits_witness :
    read_socket env_pending "body" task7_body
        = (some { task7_body with
                  msg := some "body"
                  state := TaskState.WAIT_FILTER },
           [Effect.process_message, Effect.process_filters,
            Effect.rspamd_dispatcher_pause 5])
    ∧ read_socket env_pending "more"
          { task7_body with state := TaskState.WAIT_FILTER }
        = (some { task7_body with state := TaskState.WAIT_FILTER }, []) :=
  ⟨((C5_pending_pauses_and_waits env_pending "body" task7_body).1
      (by decide) (by decide)).1,
   (C5_pending_pauses_and_waits env_pending "more"
      { task7_body with state := TaskState.WAIT_FILTER }).2 (by decide)⟩

/-- C10: `read_socket` does not depend on what `process_message` returns.
For any two return values `v1`, `v2` of a parser that treats the task the
same way, the outcome (resulting task, its state and error fields, the calls
made) is the same.  In particular, whatever the parser returns, a pipeline
result other than -1 leads to the Pending or the Complete branch, never to
the error branch of `read_socket`. -/
theorem C10_parser_result_ignored (env : Env) (parse : Task → Task)
    (v1 v2 : Task → Int) (input : String) (task : Task) :
    read_socket { env with process_message := fun t => (parse t, v1 t) }
        input task
      = read_socket { env with process_message := fun t => (parse t, v2 t) }
        input task
    ∧ (task.state = TaskState.READ_MESSAGE →
      (filtered { env with process_message := fun t => (parse t, v1 t) }
        input task).2 ≠ -1 →
      read_socket { env with process_message := fun t => (parse t, v1 t) }
          input task
        = (some
            { (filtered { env with process_message := fun t => (parse t, v1 t) }
                input task).1 with state := TaskState.WAIT_FILTER },
           [Effect.process_message, Effect.process_filters,
            Effect.rspamd_dispatcher_pause
              (filtered { env with process_message := fun t => (parse t, v1 t) }
                input task).1.dispatcher])
      ∨ read_socket { env with process_message := fun t => (parse t, v1 t) }
          input task
        = ((write_socket env
              (completed_task
                { env with process_message := fun t => (parse t, v1 t) }
                input task)).1,
           [Effect.process_message, Effect.process_filters,
            Effect.process_statfiles] ++
             (write_socket env
               (completed_task
                 { env with process_message := fun t => (parse t, v1 t) }
                 input task)).2)) := by
  refine ⟨rfl, ?_⟩
  intro hs h1
  by_cases h0 : (filtered { env with process_message := fun t => (parse t, v1 t) }
      input task).2 = 0
  · exact Or.inl (read_socket_pending _ input task hs h0)
  · exact Or.inr (read_socket_complete _ input task hs h1 h0)

/-- C10 at connection 7: a parser that fails (-1) and one that succeeds (0)
give the same outcome, and with a pending pipeline the failing parser still
leaves the task in `WAIT_FILTER`. -/
theorem C10_parser_result_ignored_witness :
    read_socket { env_pending with process_message := fun t => (t, -1) }
        "body" task7_body
      = read_socket { env_pending with process_message := fun t => (t, 0) }
        "body" task7_body
    ∧ (read_socket { env_pending with process_message := fun t => (t, -1) }
        "body" task7_body).1
      = some { task7_body with
               msg := some "body"
               state := TaskState.WAIT_FILTER } :=
  ⟨(C10_parser_result_ignored env_pending (fun t => t) (fun _ => -1)
      (fun _ => 0) "body" task7_body).1,
   by decide⟩

/-! ## The worker process -/

/-- C9: after `sigusr_handler` both `sig_ev` and `bind_ev` are deregistered,
`do_reopen_log` is 1, and loop exit is scheduled after `SOFT_SHUTDOWN_TIME`
seconds and 0 microseconds; the tasks in flight and the connection count are
exactly what they were, and the only calls made are the two `event_del`, the
log line and `event_loopexit`. -/
theorem C9_sigusr_handler_effect (SOFT_SHUTDOWN_TIME : Int) (w : World) :
    (sigusr_handler SOFT_SHUTDOWN_TIME w).sig_ev = false
    ∧ (sigusr_handler SOFT_SHUTDOWN_TIME w).bind_ev = false
    ∧ (sigusr_handler SOFT_SHUTDOWN_TIME w).do_reopen_log = 1
    ∧ (sigusr_handler SOFT_SHUTDOWN_TIME w).loopexit
        = some (SOFT_SHUTDOWN_TIME, 0)
    ∧ (sigusr_handler SOFT_SHUTDOWN_TIME w).tasks = w.tasks
    ∧ (sigusr_handler SOFT_SHUTDOWN_TIME w).connections_count
        = w.connections_count
    ∧ (sigusr_handler SOFT_SHUTDOWN_TIME w).log
        = w.log ++
          [Effect.event_del_sig_ev, Effect.event_del_bind_ev,
           Effect.msg_info "worker's shutdown is pending in %d sec",
           Effect.event_loopexit SOFT_SHUTDOWN_TIME 0] :=
  ⟨rfl, rfl, rfl, rfl, rfl, rfl, rfl⟩

/-- C7 fails on the code: on a successful accept (listening socket 3, new
descriptor 7) `accept_socket` calls `event_make_socket_nonblocking` on the
listening socket 3; the descriptor 7, which becomes the task's socket and the
dispatcher's, is never made non-blocking. -/
theorem C7_nonblocking_applied_to_listening_socket :
    lib_ok.accept 3 = 7
    ∧ (accept_socket lib_ok 3 world0).tasks = [new_task lib_ok 7]
    ∧ (new_task lib_ok 7).sock = 7
    ∧ (accept_socket lib_ok 3 world0).log
        = [Effect.accept 3 7,
           Effect.event_make_socket_nonblocking 3,
           Effect.g_malloc,
           Effect.memory_pool_new,
           Effect.memory_pool_add_destructor Destructor.rcpt_destruct,
           Effect.g_hash_table_new,
           Effect.memory_pool_add_destructor
             (Destructor.g_hash_table_destroy 11),
           Effect.rspamd_create_dispatcher 7]
    ∧ Effect.event_make_socket_nonblocking 7
        ∉ (accept_socket lib_ok 3 world0).log := by
  decide

/-- C6 at connection 7 in `WRITE_REPLY`: one reply, then freed by the second
invocation; and in `READ_HEADER` the first invocation already frees. -/
theorem C6_write_socket_by_state_witness :
    (run env_complete ⟨some { task7 with state := TaskState.WRITE_REPLY }, []⟩
        [Callback.write]).task
      = some { task7 with state := TaskState.CLOSING_CONNECTION }
    ∧ (run env_complete ⟨some { task7 with state := TaskState.WRITE_REPLY }, []⟩
        [Callback.write, Callback.write]).task = none
    ∧ (write_socket env_complete
        { task7 with state := TaskState.READ_HEADER }).1 = none :=
  ⟨by decide,
   ((C6_write_socket_by_state env_complete
      { task7 with state := TaskState.WRITE_REPLY }).1 (by decide)).2.2.2.1,
   ((C6_write_socket_by_state env_complete
      { task7 with state := TaskState.READ_HEADER }).2.1 (by decide)).1⟩


/-- C1: for a task in `READ_MESSAGE` whose body is delivered to `read_socket`,
if the pipeline returns Complete (neither -1 nor 0), then the statistics
post-processing runs (once), exactly one reply is written through
`write_reply`, from the task in `WRITE_REPLY`, and the task is left in
`CLOSING_CONNECTION`, not freed.  The post-processing step is the one of the
spec, which leaves the task in WriteReply; `worker.c` itself does not assign
that state. -/
theorem C1_complete_replies_once (env : Env) (stat : Task → Task)
    (input : String) (task : Task)
    (hs : task.state = TaskState.READ_MESSAGE)
    (h1 : (filtered (with_statfiles env stat) input task).2 ≠ -1)
    (h0 : (filtered (with_statfiles env stat) input task).2 ≠ 0) :
    read_socket (with_statfiles env stat) input task
      = (some { env.write_reply
                  (completed_task (with_statfiles env stat) input task) with
                state := TaskState.CLOSING_CONNECTION },
         [Effect.process_message, Effect.process_filters,
          Effect.process_statfiles,
          Effect.write_reply
            (completed_task (with_statfiles env stat) input task)])
    ∧ (completed_task (with_statfiles env stat) input task).state
        = TaskState.WRITE_REPLY
    ∧ List.count Effect.process_statfiles
        (read_socket (with_statfiles env stat) input task).2 = 1
    ∧ replies (read_socket (with_statfiles env stat) input task).2
        = [completed_task (with_statfiles env stat) input task]
    ∧ Effect.g_free ∉ (read_socket (with_statfiles env stat) input task).2
    ∧ Effect.memory_pool_delete
        ∉ (read_socket (with_statfiles env stat) input task).2 := by
  have hst : (completed_task (with_statfiles env stat) input task).state
      = TaskState.WRITE_REPLY := rfl
  have hr := read_socket_complete (with_statfiles env stat) input task hs h1 h0
  rw [write_socket_reply _ _ (Or.inl hst)] at hr
  rw [hr]
  refine ⟨rfl, hst, ?_, rfl, ?_, ?_⟩
  · simp [List.count_cons]
  · simp
  · simp

/-- C1 on Scenario A at connection 7: command, header and blank line bring
the accepted task to `READ_MESSAGE`; the body then yields one reply, written
from `WRITE_REPLY`, and the task waits in `CLOSING_CONNECTION`. -/
theorem C1_complete_replies_once_witness :
    (accept_socket lib_ok 3 world0).tasks = [task7]
    ∧ (run env_proto ⟨some task7, []⟩ (scenario_a.take 3)).task
        = some task7_body
    ∧ (filtered env_proto "body" task7_body).2 = 1
    ∧ read_socket env_proto "body" task7_body
        = (some { task7_body with
                  msg := some "body"
                  parts := [21]
                  task_pool := Destructor.other 1 :: task7_body.task_pool
                  state := TaskState.CLOSING_CONNECTION },
           [Effect.process_message, Effect.process_filters,
            Effect.process_statfiles,
            Effect.write_reply { task7_body with
              msg := some "body"
              parts := [21]
              task_pool := Destructor.other 1 :: task7_body.task_pool
              state := TaskState.WRITE_REPLY }]) :=
  ⟨by decide, by decide, by decide,
   (C1_complete_replies_once env_lines (fun t => t) "body" task7_body
      (by decide) (by decide) (by decide)).1⟩

/-! ## Teardown runs exactly once -/

theorem run_append (env : Env) (c : Conn) (a b : List Callback) :
    run env c (a ++ b) = run env (run env c a) b := by
  simp [run, List.foldl_append]

theorem write_socket_free_log (env : Env) (task : Task)
    (h1 : task.state ≠ TaskState.WRITE_REPLY)
    (h2 : task.state ≠ TaskState.WRITE_ERROR) :
    (write_socket env task).1 = none
    ∧ ∃ m, (write_socket env task).2
          = [if task.state = TaskState.CLOSING_CONNECTION
              then Effect.msg_debug m else Effect.msg_info m]
            ++ (free_task (some task)).2 := by
  cases hs : task.state <;> simp_all [write_socket, free_task]

theorem Once_after (e : Effect) (P : List Destructor → Prop)
    (x : Option Task) (pre l : List Effect)
    (hpre : List.count e pre = 0) (hs : Once e P (x, l)) :
    Once e P (x, pre ++ l) := by
  rcases hs with ⟨t, a, b, c⟩ | ⟨a, c⟩
  · exact Or.inl ⟨t, a, b, by
      show List.count e (pre ++ l) = 0
      rw [List.count_append, hpre, c]⟩
  · exact Or.inr ⟨a, by
      show List.count e (pre ++ l) = 1
      rw [List.count_append, hpre, c]⟩

theorem Once_write_socket (env : Env) (e : Effect) (P : List Destructor → Prop)
    (hq : Quiet e) (hk : Keeps env P)
    (hfree : ∀ t : Task, P t.task_pool →
      List.count e (free_task (some t)).2 = 1)
    (task : Task) (hp : P task.task_pool) :
    Once e P (write_socket env task) := by
  obtain ⟨q1, _, _, _, _, _, q7, q8⟩ := hq
  by_cases hs : task.state = TaskState.WRITE_REPLY
      ∨ task.state = TaskState.WRITE_ERROR
  · rw [write_socket_reply env task hs]
    refine Or.inl ⟨_, rfl, hk.2.2.2.2 task hp, ?_⟩
    have := q1 task
    simp [List.count_cons, Ne.symm this]
  · have h1 : task.state ≠ TaskState.WRITE_REPLY := fun x => hs (Or.inl x)
    have h2 : task.state ≠ TaskState.WRITE_ERROR := fun x => hs (Or.inr x)
    obtain ⟨hn, m, hm⟩ := write_socket_free_log env task h1 h2
    refine Or.inr ⟨hn, ?_⟩
    rw [hm, List.count_append, hfree task hp]
    have a := q7 m
    have b := q8 m
    by_cases hc : task.state = TaskState.CLOSING_CONNECTION <;>
      simp [hc, List.count_cons, Ne.symm a, Ne.symm b]

theorem Once_err_socket (e : Effect) (P : List Destructor → Prop)
    (hq : Quiet e)
    (hfree : ∀ t : Task, P t.task_pool →
      List.count e (free_task (some t)).2 = 1)
    (message : String) (task : Task) (hp : P task.task_pool) :
    Once e P (err_socket message task) := by
  refine Or.inr ⟨rfl, ?_⟩
  show List.count e ([Effect.msg_info
    ("err_socket: abnormally closing connection, error: " ++ message)]
      ++ (free_task (some task)).2) = 1
  rw [List.count_append, hfree task hp]
  have a := hq.2.2.2.2.2.2.1
    ("err_socket: abnormally closing connection, error: " ++ message)
  simp [List.count_cons, Ne.symm a]

theorem Once_read_socket (env : Env) (e : Effect) (P : List Destructor → Prop)
    (hq : Quiet e) (hk : Keeps env P)
    (hfree : ∀ t : Task, P t.task_pool →
      List.count e (free_task (some t)).2 = 1)
    (input : String) (task : Task) (hp : P task.task_pool) :
    Once e P (read_socket env input task) := by
  obtain ⟨q1, q2, q3, q4, q5, q6, q7, q8⟩ := hq
  have hq : Quiet e := ⟨q1, q2, q3, q4, q5, q6, q7, q8⟩
  obtain ⟨k1, k2, k3, k4, k5⟩ := hk
  have hk : Keeps env P := ⟨k1, k2, k3, k4, k5⟩
  have hfil : P (filtered env input task).1.task_pool :=
    k3 _ (k2 { task with msg := some input } hp)
  have line : task.state = TaskState.READ_COMMAND
      ∨ task.state = TaskState.READ_HEADER →
      Once e P (read_socket env input task) := by
    intro hs
    have a := q2 input
    by_cases hl : (env.read_rspamd_input_line task input).2 = 0
    · rw [read_socket_line_ok env input task hs hl]
      exact Or.inl ⟨_, rfl, k1 task input hp, by
        simp [List.count_cons, Ne.symm a]⟩
    · rw [read_socket_line_error env input task hs hl]
      have b := q1 (read_error_task env input task)
      exact Or.inl ⟨_, rfl, k5 _ (k1 task input hp), by
        simp [List.count_cons, Ne.symm a, Ne.symm b]⟩
  by_cases c1 : task.state = TaskState.READ_COMMAND
  · exact line (Or.inl c1)
  by_cases c2 : task.state = TaskState.READ_HEADER
  · exact line (Or.inr c2)
  by_cases hs : task.state = TaskState.READ_MESSAGE
  · by_cases h1 : (filtered env input task).2 = -1
    · rw [read_socket_filter_error env input task hs h1]
      have b := q1 (filter_error_task env input task)
      exact Or.inl ⟨_, rfl, k5 _ hfil, by
        simp [List.count_cons, Ne.symm q3, Ne.symm q4, Ne.symm b]⟩
    · by_cases h0 : (filtered env input task).2 = 0
      · rw [read_socket_pending env input task hs h0]
        have b := q6 (filtered env input task).1.dispatcher
        exact Or.inl ⟨_, rfl, hfil, by
          simp [List.count_cons, Ne.symm q3, Ne.symm q4, Ne.symm b]⟩
      · rw [read_socket_complete env input task hs h1 h0]
        refine Once_after e P _ _ _ (by
          simp [List.count_cons, Ne.symm q3, Ne.symm q4, Ne.symm q5]) ?_
        exact Once_write_socket env e P hq hk hfree _ (k4 _ hfil)
  · rw [read_socket_idle env input task c1 c2 hs]
    exact Or.inl ⟨_, rfl, hp, rfl⟩

theorem Tracked_of_Once (e : Effect) (P : List Destructor → Prop)
    (log : List Effect) (r : Option Task × List Effect)
    (hlog : List.count e log = 0) (hs : Once e P r) :
    Tracked e P ⟨r.1, log ++ r.2⟩ := by
  rcases hs with ⟨t, a, b, c⟩ | ⟨a, c⟩
  · simp only [Tracked, a]
    exact ⟨b, by rw [List.count_append, hlog, c]⟩
  · simp only [Tracked, a]
    rw [List.count_append, hlog, c]

theorem Tracked_deliver (env : Env) (e : Effect) (P : List Destructor → Prop)
    (hq : Quiet e) (hk : Keeps env P)
    (hfree : ∀ t : Task, P t.task_pool →
      List.count e (free_task (some t)).2 = 1)
    (c : Conn) (cb : Callback) (hc : Tracked e P c) :
    Tracked e P (deliver env c cb) := by
  obtain ⟨task, log⟩ := c
  cases task with
  | none => exact hc
  | some t =>
    obtain ⟨hp, hlog⟩ : P t.task_pool ∧ List.count e log = 0 := hc
    cases cb with
    | read input =>
      rw [deliver_read]
      exact Tracked_of_Once e P log _ hlog
        (Once_read_socket env e P hq hk hfree input t hp)
    | write =>
      rw [deliver_write]
      exact Tracked_of_Once e P log _ hlog
        (Once_write_socket env e P hq hk hfree t hp)
    | err message =>
      rw [deliver_err]
      exact Tracked_of_Once e P log _ hlog
        (Once_err_socket e P hq hfree message t hp)

theorem Tracked_run (env : Env) (e : Effect) (P : List Destructor → Prop)
    (hq : Quiet e) (hk : Keeps env P)
    (hfree : ∀ t : Task, P t.task_pool →
      List.count e (free_task (some t)).2 = 1)
    (cbs : List Callback) :
    ∀ c : Conn, Tracked e P c → Tracked e P (run env c cbs) := by
  induction cbs with
  | nil => intro c hc; exact hc
  | cons cb rest ih =>
    intro c hc
    rw [run_cons]
    exact ih _ (Tracked_deliver env e P hq hk hfree c cb hc)

theorem Tracked_counts (e : Effect) (P : List Destructor → Prop) (c : Conn)
    (hc : Tracked e P c) :
    (c.task = none → List.count e c.log = 1)
    ∧ (c.task ≠ none → List.count e c.log = 0) := by
  obtain ⟨task, log⟩ := c
  cases task with
  | none => exact ⟨fun _ => hc, fun hne => (hne rfl).elim⟩
  | some t =>
    obtain ⟨_, hz⟩ : P t.task_pool ∧ List.count e log = 0 := hc
    exact ⟨fun x => by simp at x, fun _ => hz⟩

theorem Extends_refl (pool : List Destructor) : Extends pool pool :=
  ⟨[], rfl, fun d hd => by simp at hd⟩

theorem Extends_trans (a b c : List Destructor) (h1 : Extends a b)
    (h2 : Extends b c) : Extends a c := by
  obtain ⟨x, hx, px⟩ := h1
  obtain ⟨y, hy, py⟩ := h2
  refine ⟨y ++ x, by rw [hy, hx, List.append_assoc], ?_⟩
  intro d hd
  rcases List.mem_append.mp hd with h | h
  · exact py d h
  · exact px d h

theorem Keeps_of_OnlyRegisters (env : Env) (hr : OnlyRegisters env)
    (base : List Destructor) : Keeps env (Extends base) := by
  obtain ⟨r1, r2, r3, r4, r5⟩ := hr
  exact ⟨fun t i hp => Extends_trans _ _ _ hp (r1 t i),
    fun t hp => Extends_trans _ _ _ hp (r2 t),
    fun t hp => Extends_trans _ _ _ hp (r3 t),
    fun t hp => Extends_trans _ _ _ hp (r4 t),
    fun t hp => Extends_trans _ _ _ hp (r5 t)⟩

theorem Keeps_trivial (env : Env) : Keeps env (fun _ => True) :=
  ⟨fun _ _ _ => trivial, fun _ _ => trivial, fun _ _ => trivial,
    fun _ _ => trivial, fun _ _ => trivial⟩

theorem count_others (e : Effect) (task : Task) (extra : List Destructor)
    (hx : ∀ d ∈ extra, ∃ k, d = Destructor.other k)
    (he : ∀ k, e ≠ Effect.pool_destructor k) :
    List.count e (extra.map (run_destructor task)).flatten = 0 := by
  induction extra with
  | nil => rfl
  | cons d rest ih =>
    obtain ⟨k, hk⟩ := hx d (List.mem_cons_self _ _)
    have hrest := ih (fun d hd => hx d (List.mem_cons_of_mem _ hd))
    have := he k
    subst hk
    simp only [List.map_cons, List.flatten_cons, List.count_append, hrest,
      run_destructor]
    simp [List.count_cons, Ne.symm this]

theorem count_rcpt_destruct_free_task (h : Nat) (task : Task)
    (hp : Extends (pool0 h) task.task_pool) :
    List.count Effect.rcpt_destruct (free_task (some task)).2 = 1 := by
  obtain ⟨extra, hx, px⟩ := hp
  have ho := fun tk : Task =>
    count_others Effect.rcpt_destruct tk extra px (by simp)
  cases hm : task.memc_ctx <;> by_cases hr : task.rcpt = [] <;>
    simp [free_task, hm, hx, pool0, memory_pool_delete, run_destructor,
      rcpt_destruct, hr, List.count_append, List.count_cons, count_free_parts,
      ho]

theorem count_hash_destroy_free_task (h : Nat) (task : Task)
    (hp : Extends (pool0 h) task.task_pool) :
    List.count (Effect.g_hash_table_destroy h) (free_task (some task)).2 = 1 := by
  obtain ⟨extra, hx, px⟩ := hp
  have ho := fun tk : Task =>
    count_others (Effect.g_hash_table_destroy h) tk extra px (by simp)
  cases hm : task.memc_ctx <;> by_cases hr : task.rcpt = [] <;>
    simp [free_task, hm, hx, pool0, memory_pool_delete, run_destructor,
      rcpt_destruct, hr, List.count_append, List.count_cons, count_free_parts,
      ho]

theorem deliver_err_frees (env : Env) (c : Conn) (message : String) :
    (deliver env c (Callback.err message)).task = none := by
  obtain ⟨task, log⟩ := c
  cases task <;> rfl

theorem deliver_write_frees (env : Env) (task : Task) (log : List Effect)
    (h1 : task.state ≠ TaskState.WRITE_REPLY)
    (h2 : task.state ≠ TaskState.WRITE_ERROR) :
    (deliver env ⟨some task, log⟩ Callback.write).task = none := by
  rw [deliver_write]
  exact (write_socket_free env task h1 h2).1

theorem two_writes_free (env : Env) (c : Conn) :
    (run env c [Callback.write, Callback.write]).task = none := by
  obtain ⟨task, log⟩ := c
  cases task with
  | none => rfl
  | some t =>
    rw [run_cons, run_cons, run_nil]
    by_cases hs : t.state = TaskState.WRITE_REPLY
        ∨ t.state = TaskState.WRITE_ERROR
    · rw [deliver_write, write_socket_reply env t hs]
      exact deliver_write_frees env _ _ (by simp) (by simp)
    · have h := deliver_write_frees env t log (fun x => hs (Or.inl x))
        (fun x => hs (Or.inr x))
      generalize deliver env ⟨some t, log⟩ Callback.write = c1 at h
      obtain ⟨task1, log1⟩ := c1
      simp only at h
      subst h
      rfl

theorem accept_socket_task (lib : AcceptLib) (fd : Int) (w : World) (t : Task)
    (hacc : (accept_socket lib fd w).tasks = w.tasks ++ [t]) :
    t = new_task lib (lib.accept fd) := by
  have absurd_same : w.tasks = w.tasks ++ [t] → False := by
    intro e
    have := congrArg List.length e
    simp at this
  unfold accept_socket at hacc
  by_cases h1 : lib.accept fd = -1
  · simp only [h1, if_true] at hacc
    exact (absurd_same hacc).elim
  · by_cases h2 : lib.event_make_socket_nonblocking fd < 0
    · simp only [h1, h2, if_true, if_false] at hacc
      exact (absurd_same hacc).elim
    · cases hm : lib.g_malloc with
      | none =>
        simp only [h1, h2, hm, if_false] at hacc
        exact (absurd_same hacc).elim
      | some a =>
        simp only [h1, h2, hm, if_false] at hacc
        have := List.append_cancel_left hacc
        simpa using this.symm

/-- C3: for a task created by `accept_socket` and any sequence of
`read_socket` / `write_socket` / `err_socket` callbacks.  Every exit path
frees the task: `err_socket` in whatever state the sequence left it,
`write_socket` in any state but the two write states (`CLOSING_CONNECTION`
after a reply, the defensive default branch), and two `write_socket` in any
case.  If the sequence has freed the task, `memory_pool_delete` ran exactly
once, and if it has not, zero times.  With collaborators that only register
teardown actions of their own on the pool, the same holds of each of the two
actions registered at accept, `rcpt_destruct` and `g_hash_table_destroy` of
the result map: exactly once when freed, zero times before. -/
theorem C3_teardown_exactly_once (env : Env)
    (lib : AcceptLib) (fd : Int) (w : World) (t : Task)
    (hacc : (accept_socket lib fd w).tasks = w.tasks ++ [t])
    (cbs : List Callback) :
    (∀ message,
      (run env ⟨some t, []⟩ (cbs ++ [Callback.err message])).task = none)
    ∧ (∀ t', (run env ⟨some t, []⟩ cbs).task = some t' →
        t'.state ≠ TaskState.WRITE_REPLY → t'.state ≠ TaskState.WRITE_ERROR →
        (run env ⟨some t, []⟩ (cbs ++ [Callback.write])).task = none)
    ∧ (run env ⟨some t, []⟩ (cbs ++ [Callback.write, Callback.write])).task
        = none
    ∧ ((run env ⟨some t, []⟩ cbs).task = none →
        List.count Effect.memory_pool_delete (run env ⟨some t, []⟩ cbs).log = 1)
    ∧ ((run env ⟨some t, []⟩ cbs).task ≠ none →
        List.count Effect.memory_pool_delete (run env ⟨some t, []⟩ cbs).log = 0)
    ∧ (OnlyRegisters env →
        ((run env ⟨some t, []⟩ cbs).task = none →
          List.count Effect.rcpt_destruct (run env ⟨some t, []⟩ cbs).log = 1
          ∧ List.count (Effect.g_hash_table_destroy t.results)
              (run env ⟨some t, []⟩ cbs).log = 1)
        ∧ ((run env ⟨some t, []⟩ cbs).task ≠ none →
          List.count Effect.rcpt_destruct (run env ⟨some t, []⟩ cbs).log = 0
          ∧ List.count (Effect.g_hash_table_destroy t.results)
              (run env ⟨some t, []⟩ cbs).log = 0)) := by
  have ht := accept_socket_task lib fd w t hacc
  have hpool : Extends (pool0 t.results) t.task_pool := by
    rw [ht]
    exact Extends_refl _
  have quiet : ∀ e : Effect, (∀ x, e ≠ Effect.write_reply x) →
      (∀ x, e ≠ Effect.read_rspamd_input_line x) → e ≠ Effect.process_message →
      e ≠ Effect.process_filters → e ≠ Effect.process_statfiles →
      (∀ x, e ≠ Effect.rspamd_dispatcher_pause x) →
      (∀ x, e ≠ Effect.msg_info x) → (∀ x, e ≠ Effect.msg_debug x) → Quiet e :=
    fun e a b c d f g h i => ⟨a, b, c, d, f, g, h, i⟩
  have released := Tracked_counts _ _ _
    (Tracked_run env Effect.memory_pool_delete (fun _ => True)
      (quiet _ (by simp) (by simp) (by simp) (by simp) (by simp) (by simp)
        (by simp) (by simp))
      (Keeps_trivial env) (fun x _ => count_pool_delete_free_task x) cbs
      ⟨some t, []⟩ ⟨trivial, rfl⟩)
  refine ⟨?_, ?_, ?_, released.1, released.2, ?_⟩
  · intro message
    rw [run_append, run_cons, run_nil]
    exact deliver_err_frees env _ message
  · intro t' ht' h1 h2
    rw [run_append, run_cons, run_nil]
    generalize run env ⟨some t, []⟩ cbs = c at ht'
    obtain ⟨task, log⟩ := c
    simp only at ht'
    subst ht'
    exact deliver_write_frees env t' log h1 h2
  · rw [run_append]
    exact two_writes_free env _
  · intro hreg
    have hk := Keeps_of_OnlyRegisters env hreg (pool0 t.results)
    have rd := Tracked_counts _ _ _
      (Tracked_run env Effect.rcpt_destruct (Extends (pool0 t.results))
        (quiet _ (by simp) (by simp) (by simp) (by simp) (by simp) (by simp)
          (by simp) (by simp))
        hk (fun x hx => count_rcpt_destruct_free_task t.results x hx) cbs
        ⟨some t, []⟩ ⟨hpool, rfl⟩)
    have hd := Tracked_counts _ _ _
      (Tracked_run env (Effect.g_hash_table_destroy t.results)
        (Extends (pool0 t.results))
        (quiet _ (by simp) (by simp) (by simp) (by simp) (by simp) (by simp)
          (by simp) (by simp))
        hk (fun x hx => count_hash_destroy_free_task t.results x hx) cbs
        ⟨some t, []⟩ ⟨hpool, rfl⟩)
    exact ⟨fun h => ⟨rd.1 h, hd.1 h⟩, fun h => ⟨rd.2 h, hd.2 h⟩⟩

theorem env_lines_reader (t : Task) (i : String) :
    (env_lines.read_rspamd_input_line t i).1.task_pool = t.task_pool := by
  by_cases hi : i = ""
  · cases hs : t.state <;> simp [env_lines, hs, hi]
  · cases hs : t.state <;> simp [env_lines, hs, hi]

theorem env_proto_only_registers : OnlyRegisters env_proto := by
  refine ⟨?_, ?_, ?_, ?_, ?_⟩
  · intro t i
    show Extends _ (env_lines.read_rspamd_input_line t i).1.task_pool
    rw [env_lines_reader]
    exact Extends_refl _
  · intro t
    exact ⟨[Destructor.other 1], rfl, fun d hd => ⟨1, by simpa using hd⟩⟩
  · intro t
    exact Extends_refl _
  · intro t
    exact Extends_refl _
  · intro t
    exact Extends_refl _

/-- C3 at connection 7.  Scenario C: the peer goes away while the headers
are read, `err_socket` frees the task and the arena and both teardown actions
ran once.  Scenario A: the same after the reply, with a parser that has
registered a teardown action of its own; and zero times while the task still
waits for the write to complete. -/
theorem C3_teardown_exactly_once_witness :
    (accept_socket lib_ok 3 world0).tasks = world0.tasks ++ [task7]
    ∧ scenario_c
        = scenario_a.take 2 ++ [Callback.err "Connection reset by peer"]
    ∧ (run env_proto ⟨some task7, []⟩
        (scenario_a.take 2 ++ [Callback.err "Connection reset by peer"])).task
        = none
    ∧ List.count Effect.memory_pool_delete
        (run env_proto ⟨some task7, []⟩ scenario_c).log = 1
    ∧ (List.count Effect.rcpt_destruct
          (run env_proto ⟨some task7, []⟩ scenario_c).log = 1
      ∧ List.count (Effect.g_hash_table_destroy task7.results)
          (run env_proto ⟨some task7, []⟩ scenario_c).log = 1)
    ∧ (run env_proto ⟨some task7, []⟩ scenario_a).task = none
    ∧ (List.count Effect.rcpt_destruct
          (run env_proto ⟨some task7, []⟩ scenario_a).log = 1
      ∧ List.count (Effect.g_hash_table_destroy task7.results)
          (run env_proto ⟨some task7, []⟩ scenario_a).log = 1)
    ∧ (run env_proto ⟨some task7, []⟩ (scenario_a.take 4)).task ≠ none
    ∧ List.count Effect.memory_pool_delete
        (run env_proto ⟨some task7, []⟩ (scenario_a.take 4)).log = 0 :=
  ⟨by decide, by decide,
   (C3_teardown_exactly_once env_proto lib_ok 3 world0 task7 (by decide)
      (scenario_a.take 2)).1 "Connection reset by peer",
   (C3_teardown_exactly_once env_proto lib_ok 3 world0 task7 (by decide)
      scenario_c).2.2.2.1 (by decide),
   ((C3_teardown_exactly_once env_proto lib_ok 3 world0 task7 (by decide)
      scenario_c).2.2.2.2.2 env_proto_only_registers).1 (by decide),
   by decide,
   ((C3_teardown_exactly_once env_proto lib_ok 3 world0 task7 (by decide)
      scenario_a).2.2.2.2.2 env_proto_only_registers).1 (by decide),
   by decide,
   (C3_teardown_exactly_once env_proto lib_ok 3 world0 task7 (by decide)
      (scenario_a.take 4)).2.2.2.2.1 (by decide)⟩

/-! ## The write states before the body -/

/-- C8 fails on the code: when the allocation of the task fails after
descriptor 7 was accepted, `g_malloc` does not return `NULL`, it terminates
the program.  The worker is gone with its two tasks in flight, instead of
dropping this one connection; the `NULL` test of `accept_socket` is never
reached with a failed allocation, whatever the (non-zero) size of the
task. -/
theorem C8_allocation_failure_aborts_worker (sizeof_task : Nat) :
    lib_ok.accept 3 = 7
    ∧ ¬ lib_ok.event_make_socket_nonblocking 3 < 0
    ∧ g_malloc (sizeof_task + 1) none = GMalloc.aborts
    ∧ accept_event lib_ok (sizeof_task + 1) none 3 world2 = none
    ∧ world2.tasks.length = 2
    ∧ ∀ heap, g_malloc (sizeof_task + 1) heap ≠ GMalloc.returns none := by
  refine ⟨by decide, by decide, ?_, ?_, by decide, ?_⟩
  · simp [g_malloc]
  · simp [accept_event, g_malloc, lib_ok]
  · intro heap
    cases heap <;> simp [g_malloc]

end Rspamd
